import Mathlib

/-!
Verification of the conversation-state and message-processing core of the
WhatsApp OpenAI bot (`wpbot.py`).

The embedding below translates the Python source faithfully:

* Python dicts (`self.conversations`, `self.user_details`) become association
  lists over `String` keys; reads are `getk`, writes are `setk` (a write to an
  existing key updates it in place, preserving dict insertion order).
* Python string methods `.lower()`, `.strip()`, `.replace(old, new)` become
  `strLower`, `strTrim`, `strReplace`, implemented on the character list so
  that they compute by kernel reduction.  `strReplace` replaces every
  non-overlapping occurrence left to right, exactly like `str.replace`.
* In Python, `get_conversation_history` returns the very list object stored in
  `self.conversations`, so `conversation.append(...)` in `process_message`
  mutates the stored history immediately.  The embedding mirrors this aliasing
  by writing the appended list back into the store at the point of each
  `append`.
* The OpenAI client call is an opaque collaborator: it is modelled by a
  function argument `gateway : List Message → Except String String` giving,
  for the message list it is invoked on, either the assistant text or the
  description `str(e)` of the raised exception.  The `try/except` wrapper of
  `process_message` becomes the `Except.error` branch, which produces the
  apology reply instead of propagating the failure.
* Presence of `openai.api_key` and of the Twilio credentials are the booleans
  `apiKeySet` and `twilioCreds`.
-/

namespace WpBot

/-- One chat message as stored in a conversation: a role string
(`"system"`, `"user"` or `"assistant"`) and its text content. -/
structure Message where
  role : String
  content : String
deriving DecidableEq

/-- Read from an association list, Python `d[k]` / `k in d`. -/
def getk {α : Type} : List (String × α) → String → Option α
  | [], _ => none
  | (k, v) :: rest, key => if k = key then some v else getk rest key

/-- Write to an association list, Python `d[k] = v`: an existing key is
updated in place, a new key is appended at the end. -/
def setk {α : Type} : List (String × α) → String → α → List (String × α)
  | [], key, v => [(key, v)]
  | (k, w) :: rest, key, v =>
      if k = key then (key, v) :: rest else (k, w) :: setk rest key v

/-- Python `s.lower()` restricted to the character-wise case mapping. -/
def strLower (s : String) : String :=
  ⟨s.data.map Char.toLower⟩

/-- Python `s.strip()`: drop whitespace from both ends. -/
def strTrim (s : String) : String :=
  ⟨((s.data.dropWhile Char.isWhitespace).reverse.dropWhile Char.isWhitespace).reverse⟩

/-- Replace every non-overlapping occurrence of `pat` (when nonempty) in the
character list, scanning left to right; `fuel` bounds the recursion and is
instantiated with the list length, which suffices because every step consumes
at least one character. -/
def replaceFuel (pat rep : List Char) : Nat → List Char → List Char
  | _, [] => []
  | 0, l => l
  | fuel + 1, c :: cs =>
      if pat.isPrefixOf (c :: cs) ∧ pat ≠ [] then
        rep ++ replaceFuel pat rep fuel (List.drop (pat.length - 1) cs)
      else
        c :: replaceFuel pat rep fuel cs

/-- Python `s.replace(pat, rep)` for a nonempty `pat`. -/
def strReplace (s pat rep : String) : String :=
  ⟨replaceFuel pat.data rep.data s.data.length s.data⟩

/-- The persona preamble seeded at index 0 of every conversation
(lines 135-137 and 143-145 of `wpbot.py`). -/
def systemSeed : Message :=
  ⟨"system", "You are a helpful assistant responding via WhatsApp."⟩

/-- The mutable state of the bot that the claims are about: the per-user
conversation store `self.conversations` and the user directory
`self.user_details`. -/
structure BotState where
  conversations : List (String × List Message)
  user_details : List (String × String)
deriving DecidableEq

/-- The configuration values that `!info` reports, in their rendered form
(`self.config.get('model')`, `...('temperature')`, `...('max_tokens')`). -/
structure BotConfig where
  model : String
  temperature : String
  max_tokens : String
deriving DecidableEq

/-- `get_conversation_history` (lines 132-138): return the stored history, or
seed a fresh one in the store and return it.  The returned list is the stored
list (Python aliasing), so the second component is the updated store. -/
def get_conversation_history (convs : List (String × List Message))
    (user_id : String) : List Message × List (String × List Message) :=
  match getk convs user_id with
  | some h => (h, convs)
  | none => ([systemSeed], setk convs user_id [systemSeed])

/-- Reply of `clear_conversation` when a history existed and was reset. -/
def clearedReply : String :=
  "Conversation history cleared. What would you like to talk about?"

/-- Reply of `clear_conversation` when the user had no history. -/
def noHistoryReply : String :=
  "No conversation history found."

/-- `clear_conversation` (lines 140-147): reset an existing history to the
single seeded message, reporting which branch ran via the reply text. -/
def clear_conversation (convs : List (String × List Message))
    (user_id : String) : String × List (String × List Message) :=
  match getk convs user_id with
  | some _ => (clearedReply, setk convs user_id [systemSeed])
  | none => (noHistoryReply, convs)

/-- Outcome of `get_user_name`: the returned display name, the user-details
map afterwards, and whether `save_user_details` was invoked (persistence). -/
structure ResolveResult where
  name : String
  details : List (String × String)
  persisted : Bool
deriving DecidableEq

/-- `get_user_name` (lines 110-130): return a recorded mapping unchanged;
otherwise derive `phone` by removing the `whatsapp:` decoration, and only
when the Twilio credentials are configured record and persist the mapping
(the `Client(...)` constructor itself does not raise here).  Without the
credentials the derived name is returned without being recorded. -/
def get_user_name (details : List (String × String)) (twilioCreds : Bool)
    (user_id : String) : ResolveResult :=
  match getk details user_id with
  | some n => ⟨n, details, false⟩
  | none =>
      let phone := strReplace user_id "whatsapp:" ""
      if twilioCreds then ⟨phone, setk details user_id phone, true⟩
      else ⟨phone, details, false⟩

/-- The `!help` reply (lines 165-171). -/
def helpReply : String :=
  "WhatsApp OpenAI Bot Help:\n- !clear: Clear conversation history\n- !help: Show this help message\n- !info: Show current bot configuration\nJust type a message to chat with the AI assistant!"

/-- The `!info` reply (lines 176-181), interpolating the current config. -/
def infoReply (config : BotConfig) : String :=
  "Bot Configuration:\n- Model: " ++ config.model ++ "\n- Temperature: "
    ++ config.temperature ++ "\n- Max tokens: " ++ config.max_tokens

/-- The fixed warning returned when no API key is configured (line 192). -/
def apiKeyWarning : String :=
  "⚠️ API key not set. Please contact the administrator."

/-- Result of one `process_message` call: the returned reply text, the bot
state afterwards, and whether the OpenAI gateway was invoked. -/
structure ProcResult where
  reply : String
  state : BotState
  gatewayCalled : Bool
deriving DecidableEq

/-- `process_message` (lines 149-225), translated step for step:
name resolution, the three command checks on `user_message.lower()`, the
history fetch, the in-place append of the pending user turn (which, by
aliasing, is already a mutation of the store), the API-key check, the gateway
call, the assistant append, and the trim `[conversation[0]] +
conversation[-19:]` when the length exceeds 20.  A gateway failure is caught
and converted to the apology reply built from
`error_message = "Error: " + str(e)`. -/
def process_message (st : BotState) (config : BotConfig)
    (apiKeySet twilioCreds : Bool)
    (gateway : List Message → Except String String)
    (user_id user_message : String) : ProcResult :=
  let r := get_user_name st.user_details twilioCreds user_id
  let st := { st with user_details := r.details }
  if strLower user_message = "!clear" then
    let cc := clear_conversation st.conversations user_id
    ⟨cc.1, { st with conversations := cc.2 }, false⟩
  else if strLower user_message = "!help" then
    ⟨helpReply, st, false⟩
  else if strLower user_message = "!info" then
    ⟨infoReply config, st, false⟩
  else
    let gh := get_conversation_history st.conversations user_id
    let conversation := gh.1 ++ [⟨"user", user_message⟩]
    let convs := setk gh.2 user_id conversation
    let st := { st with conversations := convs }
    if apiKeySet = false then
      ⟨apiKeyWarning, st, false⟩
    else
      match gateway conversation with
      | Except.ok assistant_message =>
          let conversation := conversation ++ [⟨"assistant", assistant_message⟩]
          let conversation :=
            if conversation.length > 20 then
              conversation.take 1 ++ conversation.drop (conversation.length - 19)
            else conversation
          ⟨assistant_message,
            { st with conversations := setk convs user_id conversation }, true⟩
      | Except.error e =>
          ⟨"Sorry, I encountered an error: " ++ ("Error: " ++ e), st, true⟩

/-- `whatsapp_webhook` (lines 274-288): the transport strips surrounding
whitespace from the body before handing it to `process_message`. -/
def whatsapp_webhook (st : BotState) (config : BotConfig)
    (apiKeySet twilioCreds : Bool)
    (gateway : List Message → Except String String)
    (sender body : String) : ProcResult :=
  process_message st config apiKeySet twilioCreds gateway sender (strTrim body)

/-- The history `process_message` fetches for `user_id` (the stored one, or
the fresh seeded one for a first-contact user). -/
def fetchedHistory (convs : List (String × List Message))
    (user_id : String) : List Message :=
  (get_conversation_history convs user_id).1

/-- The net effect of one successful non-command chat turn on the fetched
history: append the user and assistant messages, then trim to element 0 plus
the last 19 when the length exceeds 20. -/
def chatTurn (h : List Message) (msg reply : String) : List Message :=
  let c := h ++ [⟨"user", msg⟩, ⟨"assistant", reply⟩]
  if c.length > 20 then c.take 1 ++ c.drop (c.length - 19) else c

/-- `user_message.lower()` matches one of the three command literals. -/
def isCommand (msg : String) : Prop :=
  strLower msg = "!clear" ∨ strLower msg = "!help" ∨ strLower msg = "!info"

instance (msg : String) : Decidable (isCommand msg) := by
  unfold isCommand
  infer_instance

/-- Run a sequence of successful chat turns for one user: each element
`(msg, reply)` is processed with a configured API key and a gateway that
returns `reply`. -/
def processTurns (config : BotConfig) (twilioCreds : Bool) (user_id : String)
    (st : BotState) : List (String × String) → BotState
  | [] => st
  | (msg, reply) :: rest =>
      processTurns config twilioCreds user_id
        (process_message st config true twilioCreds
          (fun _ => Except.ok reply) user_id msg).state rest

/-- A concrete configuration matching `DEFAULT_CONFIG` in `wpbot.py`, used to
instantiate theorems at concrete inputs. -/
def sampleConfig : BotConfig :=
  ⟨"gpt-3.5-turbo", "0.7", "1000"⟩

/-- A concrete gateway whose behavior is irrelevant to the branch under
study (used to instantiate theorems at concrete inputs). -/
def gwUnused : List Message → Except String String :=
  fun _ => Except.error "unused"

/-! ### Association-list lemmas -/

theorem getk_setk_self {α : Type} (m : List (String × α)) (k : String) (v : α) :
    getk (setk m k v) k = some v := by
  induction m with
  | nil => simp [getk, setk]
  | cons p rest ih =>
      obtain ⟨k', w⟩ := p
      by_cases h : k' = k
      · subst h; simp [getk, setk]
      · simp [getk, setk, h, ih]

theorem getk_setk_ne {α : Type} (m : List (String × α)) (k k' : String) (v : α)
    (h : k ≠ k') : getk (setk m k v) k' = getk m k' := by
  induction m with
  | nil => simp [getk, setk, h]
  | cons p rest ih =>
      obtain ⟨k'', w⟩ := p
      by_cases h2 : k'' = k
      · subst h2; simp [getk, setk, h]
      · simp [getk, setk, h2, ih]

theorem setk_setk {α : Type} (m : List (String × α)) (k : String) (v w : α) :
    setk (setk m k v) k w = setk m k w := by
  induction m with
  | nil => simp [setk]
  | cons p rest ih =>
      obtain ⟨k', u⟩ := p
      by_cases h : k' = k
      · subst h; simp [setk]
      · simp [setk, h, ih]

/-! ### Fetched-history lemmas -/

theorem fetchedHistory_of_some {convs : List (String × List Message)}
    {user_id : String} {h : List Message} (hg : getk convs user_id = some h) :
    fetchedHistory convs user_id = h := by
  simp [fetchedHistory, get_conversation_history, hg]

theorem fetchedHistory_of_none {convs : List (String × List Message)}
    {user_id : String} (hg : getk convs user_id = none) :
    fetchedHistory convs user_id = [systemSeed] := by
  simp [fetchedHistory, get_conversation_history, hg]

/-! ### Branch lemmas for `process_message` -/

theorem process_message_clear_eq (st : BotState) (config : BotConfig)
    (apiKeySet twilioCreds : Bool)
    (gateway : List Message → Except String String) (user_id msg : String)
    (h : strLower msg = "!clear") :
    process_message st config apiKeySet twilioCreds gateway user_id msg =
      ⟨(clear_conversation st.conversations user_id).1,
        ⟨(clear_conversation st.conversations user_id).2,
          (get_user_name st.user_details twilioCreds user_id).details⟩,
        false⟩ := by
  simp [process_message, h]

theorem process_message_help_eq (st : BotState) (config : BotConfig)
    (apiKeySet twilioCreds : Bool)
    (gateway : List Message → Except String String) (user_id msg : String)
    (h : strLower msg = "!help") :
    process_message st config apiKeySet twilioCreds gateway user_id msg =
      ⟨helpReply,
        ⟨st.conversations,
          (get_user_name st.user_details twilioCreds user_id).details⟩,
        false⟩ := by
  simp [process_message, h]

theorem process_message_info_eq (st : BotState) (config : BotConfig)
    (apiKeySet twilioCreds : Bool)
    (gateway : List Message → Except String String) (user_id msg : String)
    (h : strLower msg = "!info") :
    process_message st config apiKeySet twilioCreds gateway user_id msg =
      ⟨infoReply config,
        ⟨st.conversations,
          (get_user_name st.user_details twilioCreds user_id).details⟩,
        false⟩ := by
  simp [process_message, h]

theorem not_isCommand_elim {msg : String} (hc : ¬ isCommand msg) :
    strLower msg ≠ "!clear" ∧ strLower msg ≠ "!help" ∧ strLower msg ≠ "!info" := by
  simp only [isCommand, not_or] at hc
  exact hc

theorem process_message_no_key_eq (st : BotState) (config : BotConfig)
    (twilioCreds : Bool) (gateway : List Message → Except String String)
    (user_id msg : String) (hc : ¬ isCommand msg) :
    process_message st config false twilioCreds gateway user_id msg =
      ⟨apiKeyWarning,
        ⟨setk st.conversations user_id
            (fetchedHistory st.conversations user_id ++ [⟨"user", msg⟩]),
          (get_user_name st.user_details twilioCreds user_id).details⟩,
        false⟩ := by
  obtain ⟨h1, h2, h3⟩ := not_isCommand_elim hc
  rcases hg : getk st.conversations user_id with _ | hist
  · simp [process_message, h1, h2, h3, get_conversation_history, hg,
      fetchedHistory_of_none hg, setk_setk]
  · simp [process_message, h1, h2, h3, get_conversation_history, hg,
      fetchedHistory_of_some hg]

theorem process_message_gateway_error_eq (st : BotState) (config : BotConfig)
    (twilioCreds : Bool) (gateway : List Message → Except String String)
    (user_id msg e : String) (hc : ¬ isCommand msg)
    (hgw : gateway (fetchedHistory st.conversations user_id ++ [⟨"user", msg⟩])
        = Except.error e) :
    process_message st config true twilioCreds gateway user_id msg =
      ⟨"Sorry, I encountered an error: " ++ ("Error: " ++ e),
        ⟨setk st.conversations user_id
            (fetchedHistory st.conversations user_id ++ [⟨"user", msg⟩]),
          (get_user_name st.user_details twilioCreds user_id).details⟩,
        true⟩ := by
  obtain ⟨h1, h2, h3⟩ := not_isCommand_elim hc
  rcases hg : getk st.conversations user_id with _ | hist
  · rw [fetchedHistory_of_none hg] at hgw
    simp only [List.singleton_append] at hgw
    simp [process_message, h1, h2, h3, get_conversation_history, hg, hgw,
      setk_setk, fetchedHistory_of_none hg]
  · rw [fetchedHistory_of_some hg] at hgw
    simp [process_message, h1, h2, h3, get_conversation_history, hg, hgw,
      fetchedHistory_of_some hg]

theorem process_message_gateway_ok_eq (st : BotState) (config : BotConfig)
    (twilioCreds : Bool) (gateway : List Message → Except String String)
    (user_id msg a : String) (hc : ¬ isCommand msg)
    (hgw : gateway (fetchedHistory st.conversations user_id ++ [⟨"user", msg⟩])
        = Except.ok a) :
    process_message st config true twilioCreds gateway user_id msg =
      ⟨a,
        ⟨setk st.conversations user_id
            (chatTurn (fetchedHistory st.conversations user_id) msg a),
          (get_user_name st.user_details twilioCreds user_id).details⟩,
        true⟩ := by
  obtain ⟨h1, h2, h3⟩ := not_isCommand_elim hc
  rcases hg : getk st.conversations user_id with _ | hist
  · rw [fetchedHistory_of_none hg] at hgw
    simp only [List.singleton_append] at hgw
    simp [process_message, h1, h2, h3, get_conversation_history, hg, hgw,
      setk_setk, chatTurn, fetchedHistory_of_none hg]
  · rw [fetchedHistory_of_some hg] at hgw
    simp [process_message, h1, h2, h3, get_conversation_history, hg, hgw,
      setk_setk, chatTurn, fetchedHistory_of_some hg]

/-! ### One-turn and many-turn lemmas for the trimming policy -/

theorem chatTurn_length (h : List Message) (msg reply : String) :
    (chatTurn h msg reply).length = min (h.length + 2) 20 := by
  simp only [chatTurn]
  split <;> simp_all [List.length_append, List.length_take, List.length_drop]
  omega

theorem chatTurn_head (h : List Message) (msg reply : String) (hne : h ≠ []) :
    (chatTurn h msg reply).head? = h.head? := by
  cases h with
  | nil => exact absurd rfl hne
  | cons m t =>
      simp only [chatTurn, List.cons_append]
      split
      · simp
      · simp

theorem processTurn_conversations (st : BotState) (config : BotConfig)
    (twilioCreds : Bool) (user_id msg reply : String) (hc : ¬ isCommand msg) :
    (process_message st config true twilioCreds (fun _ => Except.ok reply)
        user_id msg).state.conversations
      = setk st.conversations user_id
          (chatTurn (fetchedHistory st.conversations user_id) msg reply) := by
  rw [process_message_gateway_ok_eq st config twilioCreds
    (fun _ => Except.ok reply) user_id msg reply hc rfl]

theorem processTurns_invariant (config : BotConfig) (twilioCreds : Bool)
    (user_id : String) (turns : List (String × String)) :
    ∀ (st : BotState) (k : Nat) (hist : List Message),
      (∀ p ∈ turns, ¬ isCommand p.1) →
      getk st.conversations user_id = some hist →
      hist.length = min (1 + 2 * k) 20 →
      hist.head?.map Message.role = some "system" →
      ∃ h2,
        getk (processTurns config twilioCreds user_id st turns).conversations
            user_id = some h2 ∧
        h2.length = min (1 + 2 * (k + turns.length)) 20 ∧
        h2.head?.map Message.role = some "system" := by
  induction turns with
  | nil =>
      intro st k hist _ hg hl hh
      exact ⟨hist, hg, by simpa using hl, hh⟩
  | cons p rest ih =>
      intro st k hist hcmd hg hl hh
      obtain ⟨msg, reply⟩ := p
      have hc : ¬ isCommand msg := hcmd _ (List.mem_cons_self _ _)
      have hne : hist ≠ [] := by
        intro he; rw [he] at hh; simp at hh
      have hstep := processTurn_conversations st config twilioCreds user_id
        msg reply hc
      rw [fetchedHistory_of_some hg] at hstep
      have hrec := ih
        (process_message st config true twilioCreds
          (fun _ => Except.ok reply) user_id msg).state
        (k + 1) (chatTurn hist msg reply)
        (fun q hq => hcmd q (List.mem_cons_of_mem _ hq))
        (by rw [hstep]; exact getk_setk_self _ _ _)
        (by rw [chatTurn_length, hl]; omega)
        (by rw [chatTurn_head hist msg reply hne]; exact hh)
      simp only [processTurns]
      obtain ⟨h2, hg2, hl2, hh2⟩ := hrec
      refine ⟨h2, hg2, ?_, hh2⟩
      rw [hl2]
      simp only [List.length_cons]
      omega

/-! ### Claim C1 -/

/-- Claim C1 as stated is false on the code: with no API credential, a
first-contact user "A" sending "Hello" gets the fixed warning, but the stored
history for "A" is NOT left at the single system seed — the pending user turn
is appended to the live stored list (Python aliasing of
`get_conversation_history`'s return value), so the store holds the seed plus
the user message, which differs from the single-seed history the claim
requires. -/
theorem C1_counterexample :
    (process_message ⟨[], []⟩ sampleConfig false false gwUnused "A" "Hello").reply
        = apiKeyWarning ∧
    (process_message ⟨[], []⟩ sampleConfig false false gwUnused "A" "Hello").gatewayCalled
        = false ∧
    getk (process_message ⟨[], []⟩ sampleConfig false false gwUnused "A"
        "Hello").state.conversations "A"
        = some [systemSeed, ⟨"user", "Hello"⟩] ∧
    ([systemSeed, ⟨"user", "Hello"⟩] : List Message) ≠ [systemSeed] := by
  decide

/-- Claim C1 (amended): if no API credential is configured,
`process_message` on a non-command message returns the fixed warning without
invoking the gateway, and the stored history for the user becomes the fetched
history (the seed, for a first-contact user) with the pending user turn
appended — the user turn IS finalized into the store in this branch. -/
theorem C1_no_key_short_circuit (st : BotState) (config : BotConfig)
    (twilioCreds : Bool) (gateway : List Message → Except String String)
    (user_id msg : String) (hc : ¬ isCommand msg) :
    (process_message st config false twilioCreds gateway user_id msg).reply
        = apiKeyWarning ∧
    (process_message st config false twilioCreds gateway user_id
        msg).gatewayCalled = false ∧
    getk (process_message st config false twilioCreds gateway user_id
        msg).state.conversations user_id
      = some (fetchedHistory st.conversations user_id ++ [⟨"user", msg⟩]) := by
  rw [process_message_no_key_eq st config twilioCreds gateway user_id msg hc]
  exact ⟨rfl, rfl, getk_setk_self _ _ _⟩

/-- Claim C1 (amended) at a concrete input: first-contact user "A" sends
"Hello" with no credential configured. -/
theorem C1_no_key_short_circuit_witness :
    (process_message ⟨[], []⟩ sampleConfig false false gwUnused "A"
        "Hello").reply = apiKeyWarning ∧
    (process_message ⟨[], []⟩ sampleConfig false false gwUnused "A"
        "Hello").gatewayCalled = false ∧
    getk (process_message ⟨[], []⟩ sampleConfig false false gwUnused "A"
        "Hello").state.conversations "A"
      = some (fetchedHistory ([] : List (String × List Message)) "A"
          ++ [⟨"user", "Hello"⟩]) :=
  C1_no_key_short_circuit ⟨[], []⟩ sampleConfig false gwUnused "A" "Hello"
    (by decide)

/-! ### Claim C2 -/

/-- Claim C2: for every user and every nonempty sequence of successful
non-command chat turns starting from no stored history, the stored history
afterwards has length exactly `min (1 + 2N) 20` and its element at index 0
has role `system`. -/
theorem C2_history_length (st : BotState) (config : BotConfig)
    (twilioCreds : Bool) (user_id : String) (turns : List (String × String))
    (h0 : getk st.conversations user_id = none)
    (hne : turns ≠ [])
    (hcmd : ∀ p ∈ turns, ¬ isCommand p.1) :
    ((getk (processTurns config twilioCreds user_id st turns).conversations
        user_id).map List.length = some (min (1 + 2 * turns.length) 20)) ∧
    (((getk (processTurns config twilioCreds user_id st turns).conversations
        user_id).bind List.head?).map Message.role = some "system") := by
  cases turns with
  | nil => exact absurd rfl hne
  | cons p rest =>
      obtain ⟨msg, reply⟩ := p
      have hc : ¬ isCommand msg := hcmd _ (List.mem_cons_self _ _)
      have hstep := processTurn_conversations st config twilioCreds user_id
        msg reply hc
      rw [fetchedHistory_of_none h0] at hstep
      have hrec := processTurns_invariant config twilioCreds user_id rest
        (process_message st config true twilioCreds
          (fun _ => Except.ok reply) user_id msg).state
        1 (chatTurn [systemSeed] msg reply)
        (fun q hq => hcmd q (List.mem_cons_of_mem _ hq))
        (by rw [hstep]; exact getk_setk_self _ _ _)
        (by rw [chatTurn_length]; simp)
        (by rw [chatTurn_head _ _ _ (by simp)]; simp [systemSeed])
      obtain ⟨h2, hg2, hl2, hh2⟩ := hrec
      simp only [processTurns]
      rw [hg2]
      constructor
      · have hm : (some h2).map List.length = some h2.length := rfl
        rw [hm, hl2]
        simp only [List.length_cons]
        congr 1
        omega
      · have hb : (some h2).bind List.head? = h2.head? := rfl
        rw [hb]
        exact hh2

/-- Claim C2 at a concrete input: one successful turn for a fresh user gives
a stored history of length `min 3 20 = 3` headed by the system seed. -/
theorem C2_history_length_witness :
    ((getk (processTurns sampleConfig false "A" ⟨[], []⟩
        [("Hi", "Hello!")]).conversations "A").map List.length
      = some (min (1 + 2 * ([("Hi", "Hello!")] : List (String × String)).length) 20)) ∧
    (((getk (processTurns sampleConfig false "A" ⟨[], []⟩
        [("Hi", "Hello!")]).conversations "A").bind List.head?).map Message.role
      = some "system") :=
  C2_history_length ⟨[], []⟩ sampleConfig false "A" [("Hi", "Hello!")] rfl
    (by decide) (by decide)

/-! ### Claim C3 -/

/-- Claim C3 as stated is false on the code: when the gateway call fails for
user "B" whose stored history was exactly the system seed, the stored history
afterwards is the seed plus a lone `user` message — not "exactly what it was
before the `process_message` call" as the claim requires.  The user turn is
appended to the live stored list before the gateway call, so it survives the
failure. -/
theorem C3_counterexample :
    (process_message ⟨[("B", [systemSeed])], []⟩ sampleConfig true false
        (fun _ => Except.error "boom") "B" "Hi").state.conversations
      = [("B", [systemSeed, ⟨"user", "Hi"⟩])] ∧
    ([systemSeed, ⟨"user", "Hi"⟩] : List Message) ≠ [systemSeed] := by
  decide

/-- Claim C3 (amended): the assistant turn is persisted only after a
successful gateway call, together with the trim; but the user turn is
appended to the stored history before the call, so on gateway failure the
stored history is the pre-call fetched history plus the lone user message,
and on success it is the fetched history with both turns appended and
trimmed. -/
theorem C3_turn_persistence (st : BotState) (config : BotConfig)
    (twilioCreds : Bool) (user_id msg e a : String) (hc : ¬ isCommand msg) :
    (getk (process_message st config true twilioCreds
        (fun _ => Except.error e) user_id msg).state.conversations user_id
      = some (fetchedHistory st.conversations user_id ++ [⟨"user", msg⟩])) ∧
    (getk (process_message st config true twilioCreds
        (fun _ => Except.ok a) user_id msg).state.conversations user_id
      = some (chatTurn (fetchedHistory st.conversations user_id) msg a)) := by
  constructor
  · rw [process_message_gateway_error_eq st config twilioCreds
      (fun _ => Except.error e) user_id msg e hc rfl]
    exact getk_setk_self _ _ _
  · rw [process_message_gateway_ok_eq st config twilioCreds
      (fun _ => Except.ok a) user_id msg a hc rfl]
    exact getk_setk_self _ _ _

/-- Claim C3 (amended) at a concrete input: user "B" with a seeded history
sends "Hi"; on failure the lone user turn remains, on success both turns are
stored. -/
theorem C3_turn_persistence_witness :
    (getk (process_message ⟨[("B", [systemSeed])], []⟩ sampleConfig true false
        (fun _ => Except.error "boom") "B" "Hi").state.conversations "B"
      = some (fetchedHistory [("B", [systemSeed])] "B" ++ [⟨"user", "Hi"⟩])) ∧
    (getk (process_message ⟨[("B", [systemSeed])], []⟩ sampleConfig true false
        (fun _ => Except.ok "Hey!") "B" "Hi").state.conversations "B"
      = some (chatTurn (fetchedHistory [("B", [systemSeed])] "B") "Hi" "Hey!")) :=
  C3_turn_persistence ⟨[("B", [systemSeed])], []⟩ sampleConfig false "B" "Hi"
    "boom" "Hey!" (by decide)

/-! ### Claim C4 -/

/-- Claim C4: command literals are matched case-insensitively and with
surrounding whitespace trimmed: at the webhook (which strips the body before
processing), " !CLEAR " produces exactly the same result — reply and state
change — as "!clear", for every starting state; likewise for "!help" and
"!info". -/
theorem C4_command_trim_case (st : BotState) (config : BotConfig)
    (apiKeySet twilioCreds : Bool)
    (gateway : List Message → Except String String) (sender : String) :
    whatsapp_webhook st config apiKeySet twilioCreds gateway sender " !CLEAR "
      = whatsapp_webhook st config apiKeySet twilioCreds gateway sender "!clear" ∧
    whatsapp_webhook st config apiKeySet twilioCreds gateway sender " !HELP "
      = whatsapp_webhook st config apiKeySet twilioCreds gateway sender "!help" ∧
    whatsapp_webhook st config apiKeySet twilioCreds gateway sender " !INFO "
      = whatsapp_webhook st config apiKeySet twilioCreds gateway sender "!info" := by
  unfold whatsapp_webhook
  refine ⟨?_, ?_, ?_⟩
  · rw [process_message_clear_eq st config apiKeySet twilioCreds gateway sender
        _ (by decide),
      process_message_clear_eq st config apiKeySet twilioCreds gateway sender
        _ (by decide)]
  · rw [process_message_help_eq st config apiKeySet twilioCreds gateway sender
        _ (by decide),
      process_message_help_eq st config apiKeySet twilioCreds gateway sender
        _ (by decide)]
  · rw [process_message_info_eq st config apiKeySet twilioCreds gateway sender
        _ (by decide),
      process_message_info_eq st config apiKeySet twilioCreds gateway sender
        _ (by decide)]

/-! ### Claim C5 -/

/-- Claim C5: a message that is one of the three command strings after
trimming and lowercasing never reaches the gateway invocation; and a message
that is not one of the three literals never matches a command and, given a
configured credential, always reaches the gateway-invocation path (command
matching is exact equality, never partial-substring matching). -/
theorem C5_command_precedence (st : BotState) (config : BotConfig)
    (apiKeySet twilioCreds : Bool)
    (gateway : List Message → Except String String) (sender body : String) :
    (isCommand (strTrim body) →
      (whatsapp_webhook st config apiKeySet twilioCreds gateway sender
          body).gatewayCalled = false) ∧
    (¬ isCommand (strTrim body) →
      (whatsapp_webhook st config true twilioCreds gateway sender
          body).gatewayCalled = true) := by
  constructor
  · intro hcmd
    unfold whatsapp_webhook
    rcases hcmd with h | h | h
    · rw [process_message_clear_eq st config apiKeySet twilioCreds gateway
        sender _ h]
    · rw [process_message_help_eq st config apiKeySet twilioCreds gateway
        sender _ h]
    · rw [process_message_info_eq st config apiKeySet twilioCreds gateway
        sender _ h]
  · intro hcmd
    unfold whatsapp_webhook
    rcases hgw : gateway (fetchedHistory st.conversations sender
        ++ [⟨"user", strTrim body⟩]) with e | a
    · rw [process_message_gateway_error_eq st config twilioCreds gateway
        sender _ e hcmd hgw]
    · rw [process_message_gateway_ok_eq st config twilioCreds gateway
        sender _ a hcmd hgw]

/-- Claim C5 at concrete inputs: " !CLEAR " never reaches the gateway, and
"Hello" with a configured credential does. -/
theorem C5_command_precedence_witness :
    (whatsapp_webhook ⟨[], []⟩ sampleConfig true false gwUnused "A"
        " !CLEAR ").gatewayCalled = false ∧
    (whatsapp_webhook ⟨[], []⟩ sampleConfig true false gwUnused "A"
        "Hello").gatewayCalled = true :=
  ⟨(C5_command_precedence ⟨[], []⟩ sampleConfig true false gwUnused "A"
      " !CLEAR ").1 (by decide),
   (C5_command_precedence ⟨[], []⟩ sampleConfig true false gwUnused "A"
      "Hello").2 (by decide)⟩

/-! ### Claim C6 -/

/-- Claim C6: after `clear_conversation`, `get_conversation_history` returns
the single-element seeded history whose sole entry has role `system`; the
`!clear` command replies with the cleared message exactly when a history
existed (and was reset) and with the no-history message when the user had
none, and `process_message` on "!clear" returns exactly
`clear_conversation`'s reply. -/
theorem C6_clear_contract (st : BotState) (config : BotConfig)
    (apiKeySet twilioCreds : Bool)
    (gateway : List Message → Except String String) (user_id : String) :
    (get_conversation_history (clear_conversation st.conversations user_id).2
        user_id).1 = [systemSeed] ∧
    systemSeed.role = "system" ∧
    ((getk st.conversations user_id).isSome = true →
      (clear_conversation st.conversations user_id).1 = clearedReply) ∧
    ((getk st.conversations user_id).isSome = false →
      (clear_conversation st.conversations user_id).1 = noHistoryReply) ∧
    (process_message st config apiKeySet twilioCreds gateway user_id
        "!clear").reply = (clear_conversation st.conversations user_id).1 := by
  refine ⟨?_, rfl, ?_, ?_, ?_⟩
  · rcases hg : getk st.conversations user_id with _ | h
    · simp [clear_conversation, hg, get_conversation_history]
    · simp [clear_conversation, hg, get_conversation_history, getk_setk_self]
  · intro hs
    rcases hg : getk st.conversations user_id with _ | h
    · rw [hg] at hs; simp at hs
    · simp [clear_conversation, hg]
  · intro hs
    rcases hg : getk st.conversations user_id with _ | h
    · simp [clear_conversation, hg]
    · rw [hg] at hs; simp at hs
  · rw [process_message_clear_eq st config apiKeySet twilioCreds gateway
      user_id _ (by decide)]

/-- Claim C6 at concrete inputs: clearing a user with a stored history gives
the cleared reply, clearing an unknown user gives the no-history reply. -/
theorem C6_clear_contract_witness :
    (clear_conversation [("B", [systemSeed, ⟨"user", "Hi"⟩])] "B").1
        = clearedReply ∧
    (clear_conversation ([] : List (String × List Message)) "B").1
        = noHistoryReply :=
  ⟨(C6_clear_contract ⟨[("B", [systemSeed, ⟨"user", "Hi"⟩])], []⟩ sampleConfig
      true false gwUnused "B").2.2.1 (by decide),
   (C6_clear_contract ⟨[], []⟩ sampleConfig true false gwUnused
      "B").2.2.2.1 (by decide)⟩

/-! ### Claim C7 -/

/-- Claim C7: on any gateway failure with description `e`,
`process_message` returns exactly the apologetic reply
"Sorry, I encountered an error: " followed by the description
`"Error: " ++ e` (so the reply contains the failure description), and that
reply is never the empty string; the embedding of `process_message` is a
total function, so the failure is never propagated to the caller. -/
theorem C7_failure_reply (st : BotState) (config : BotConfig)
    (twilioCreds : Bool) (user_id msg e : String) (hc : ¬ isCommand msg) :
    (process_message st config true twilioCreds (fun _ => Except.error e)
        user_id msg).reply
      = "Sorry, I encountered an error: " ++ ("Error: " ++ e) ∧
    (process_message st config true twilioCreds (fun _ => Except.error e)
        user_id msg).reply ≠ "" := by
  rw [process_message_gateway_error_eq st config twilioCreds
    (fun _ => Except.error e) user_id msg e hc rfl]
  refine ⟨rfl, ?_⟩
  intro hemp
  have hd : ("Sorry, I encountered an error: " ++ ("Error: " ++ e)
      : String).data = ("" : String).data := by
    exact congrArg String.data hemp
  rw [String.data_append, String.data_append] at hd
  simp at hd

/-- Claim C7 at a concrete input: gateway failure "boom" on message "Hello"
produces the apologetic reply carrying the description. -/
theorem C7_failure_reply_witness :
    (process_message ⟨[], []⟩ sampleConfig true false
        (fun _ => Except.error "boom") "A" "Hello").reply
      = "Sorry, I encountered an error: " ++ ("Error: " ++ "boom") ∧
    (process_message ⟨[], []⟩ sampleConfig true false
        (fun _ => Except.error "boom") "A" "Hello").reply ≠ "" :=
  C7_failure_reply ⟨[], []⟩ sampleConfig false "A" "Hello" "boom" (by decide)

/-! ### Claim C8 -/

/-- Claim C8 as stated is false on the code: for the unseen identifier
"whatsapp:+15551234567" with no Twilio credentials configured,
`get_user_name` returns the derived bare address but does NOT store the
mapping (the user-details map stays empty, so the identifier has no recorded
mapping afterwards) and does NOT persist anything — the store-and-persist
step runs only inside the Twilio-credentials branch. -/
theorem C8_counterexample :
    (get_user_name [] false "whatsapp:+15551234567").name = "+15551234567" ∧
    (get_user_name [] false "whatsapp:+15551234567").details = [] ∧
    (get_user_name [] false "whatsapp:+15551234567").persisted = false ∧
    getk (get_user_name [] false "whatsapp:+15551234567").details
        "whatsapp:+15551234567" = none := by
  decide

/-- Claim C8 (amended): for an unseen identifier, `get_user_name` derives the
fallback display name by removing the "whatsapp:" decoration; when Twilio
credentials are configured it stores that as the mapping, persists it, and
returns it, and once recorded the identifier is never re-resolved (every
later call returns the stored value unchanged, without persisting); without
Twilio credentials the derived name is returned but not recorded. -/
theorem C8_resolve_lazy (details : List (String × String))
    (twilioCreds : Bool) (user_id n : String) :
    (getk details user_id = none →
      get_user_name details true user_id
        = ⟨strReplace user_id "whatsapp:" "",
            setk details user_id (strReplace user_id "whatsapp:" ""), true⟩) ∧
    (getk details user_id = none →
      get_user_name details false user_id
        = ⟨strReplace user_id "whatsapp:" "", details, false⟩) ∧
    (getk details user_id = some n →
      get_user_name details twilioCreds user_id = ⟨n, details, false⟩) ∧
    (getk details user_id = none →
      get_user_name (get_user_name details true user_id).details twilioCreds
          user_id
        = ⟨strReplace user_id "whatsapp:" "",
            (get_user_name details true user_id).details, false⟩) := by
  refine ⟨?_, ?_, ?_, ?_⟩ <;> intro hg <;>
    simp [get_user_name, hg, getk_setk_self]

/-- Claim C8 (amended) at concrete inputs: with credentials the mapping is
recorded and persisted; without credentials nothing is recorded; a recorded
mapping is returned unchanged. -/
theorem C8_resolve_lazy_witness :
    get_user_name [] true "whatsapp:+15551234567"
      = ⟨"+15551234567", [("whatsapp:+15551234567", "+15551234567")], true⟩ ∧
    get_user_name [] false "whatsapp:+15551234567"
      = ⟨"+15551234567", [], false⟩ ∧
    get_user_name [("u", "Alice")] false "u"
      = ⟨"Alice", [("u", "Alice")], false⟩ := by
  refine ⟨?_, ?_, ?_⟩
  · rw [(C8_resolve_lazy [] true "whatsapp:+15551234567" "x").1 rfl]
    decide
  · rw [(C8_resolve_lazy [] false "whatsapp:+15551234567" "x").2.1 rfl]
    decide
  · rw [(C8_resolve_lazy [("u", "Alice")] false "u" "Alice").2.2.1 rfl]

/-! ### Claim C10 -/

/-- Claim C10: for a user with no stored history, processing a command
message (`!clear`, `!help` or `!info` after lowercasing) returns the command
reply and leaves the conversation store without an entry for that user —
in particular `!clear` replies that no history was found — while a
non-command message does create the entry at the history-fetch step. -/
theorem C10_commands_no_history (st : BotState) (config : BotConfig)
    (apiKeySet twilioCreds : Bool)
    (gateway : List Message → Except String String) (user_id msg : String)
    (h0 : getk st.conversations user_id = none) :
    (isCommand msg →
      getk (process_message st config apiKeySet twilioCreds gateway user_id
          msg).state.conversations user_id = none) ∧
    (strLower msg = "!clear" →
      (process_message st config apiKeySet twilioCreds gateway user_id
          msg).reply = noHistoryReply) ∧
    (¬ isCommand msg →
      (getk (process_message st config apiKeySet twilioCreds gateway user_id
          msg).state.conversations user_id).isSome = true) := by
  refine ⟨?_, ?_, ?_⟩
  · intro hcmd
    rcases hcmd with h | h | h
    · rw [process_message_clear_eq st config apiKeySet twilioCreds gateway
        user_id _ h]
      simp [clear_conversation, h0]
    · rw [process_message_help_eq st config apiKeySet twilioCreds gateway
        user_id _ h]
      exact h0
    · rw [process_message_info_eq st config apiKeySet twilioCreds gateway
        user_id _ h]
      exact h0
  · intro h
    rw [process_message_clear_eq st config apiKeySet twilioCreds gateway
      user_id _ h]
    simp [clear_conversation, h0]
  · intro hcmd
    cases apiKeySet with
    | false =>
        rw [process_message_no_key_eq st config twilioCreds gateway user_id
          msg hcmd]
        simp [getk_setk_self]
    | true =>
        rcases hgw : gateway (fetchedHistory st.conversations user_id
            ++ [⟨"user", msg⟩]) with e | a
        · rw [process_message_gateway_error_eq st config twilioCreds gateway
            user_id msg e hcmd hgw]
          simp [getk_setk_self]
        · rw [process_message_gateway_ok_eq st config twilioCreds gateway
            user_id msg a hcmd hgw]
          simp [getk_setk_self]

/-- Claim C10 at concrete inputs: for fresh user "A", "!help" and "!clear"
create no store entry (and "!clear" reports no history), while "Hello"
creates one. -/
theorem C10_commands_no_history_witness :
    getk (process_message ⟨[], []⟩ sampleConfig true false gwUnused "A"
        "!help").state.conversations "A" = none ∧
    (process_message ⟨[], []⟩ sampleConfig true false gwUnused "A"
        "!clear").reply = noHistoryReply ∧
    (getk (process_message ⟨[], []⟩ sampleConfig true false gwUnused "A"
        "Hello").state.conversations "A").isSome = true :=
  ⟨(C10_commands_no_history ⟨[], []⟩ sampleConfig true false gwUnused "A"
      "!help" rfl).1 (by decide),
   (C10_commands_no_history ⟨[], []⟩ sampleConfig true false gwUnused "A"
      "!clear" rfl).2.1 (by decide),
   (C10_commands_no_history ⟨[], []⟩ sampleConfig true false gwUnused "A"
      "Hello" rfl).2.2 (by decide)⟩

end WpBot
